import Mathlib

/-!
Verification of the receive-side voice packet pipeline
(`src/receive/VoiceReceiver.ts`).

Buffers are modelled as `List Nat` of byte values.  Operations of the
Node.js `Buffer` API that the source uses are embedded with their
documented semantics, in particular:

* `buf.copy(target, 0, sourceStart, sourceEnd)` throws a `RangeError`
  when `sourceStart` is negative; otherwise it copies
  `min (sourceEnd - sourceStart, target.length, buf.length - sourceStart)`
  bytes to the start of `target`, leaving the rest of `target` unchanged.
* `buf.readUInt32BE(off)` / `buf.readUInt8(off)` throw a `RangeError`
  when fewer than 4 (resp. 1) bytes are available at `off`.
* `buf.slice(start, end)` clamps its nonnegative indices and never throws.
* `buf[i]` evaluates to `undefined` out of range; `undefined === 0` is
  `false` and `undefined >> 4` is `0`.

A JavaScript exception is modelled as an explicit failure value
(`Option.none` or a `thrown` constructor), since the source installs no
exception handler anywhere on these paths.
-/

/-- Big-endian 32-bit read, `buf.readUInt32BE off`.  `none` models the
`ERR_OUT_OF_RANGE` exception thrown when fewer than 4 bytes remain. -/
def readUInt32BE (l : List Nat) (off : Nat) : Option Nat :=
  if off + 4 ≤ l.length then
    some (l.getD off 0 * 16777216 + l.getD (off + 1) 0 * 65536 +
      l.getD (off + 2) 0 * 256 + l.getD (off + 3) 0)
  else none

/-- `source.copy(target, 0, sourceStart, sourceEnd)` for nonnegative
`sourceStart` (the negative case throws and is handled at call sites).
Bytes land at the start of `target`; the tail of `target` beyond the
copied region is preserved. -/
def bufCopy (source target : List Nat) (sourceStart sourceEnd : Nat) : List Nat :=
  let bytes := ((source.drop sourceStart).take (sourceEnd - sourceStart)).take target.length
  bytes ++ target.drop bytes.length

/-- Arguments handed to the authenticated-decryption primitive by
`decrypt`: the nonce scratch buffer after the mode-specific copy, and
the ciphertext span `buffer.slice(12, end)`. -/
structure DecryptCall where
  nonceUsed : List Nat
  ciphertext : List Nat
  deriving DecidableEq, Repr

/-- Nonce selection and ciphertext slicing of `VoiceReceiver.decrypt`
(lines 74-88).  `none` models the `RangeError` thrown by
`buffer.copy(nonce, 0, buffer.length - k)` when `buffer.length - k` is
negative (the JavaScript subtraction yields a negative number, which
`Buffer.copy` rejects). -/
def decryptSetup (buffer : List Nat) (mode : String) (nonce : List Nat) :
    Option DecryptCall :=
  if mode = "xsalsa20_poly1305_lite" then
    if buffer.length < 4 then none
    else some ⟨bufCopy buffer nonce (buffer.length - 4) buffer.length,
      (buffer.take (buffer.length - 4)).drop 12⟩
  else if mode = "xsalsa20_poly1305_suffix" then
    if buffer.length < 24 then none
    else some ⟨bufCopy buffer nonce (buffer.length - 24) buffer.length,
      (buffer.take (buffer.length - 24)).drop 12⟩
  else
    some ⟨bufCopy buffer nonce 0 12, buffer.drop 12⟩

/-- The opaque authenticated-decryption primitive `methods.open`
(ciphertext, nonce, secret key); `none` is the `null` returned on
authentication failure. -/
def Opener : Type := List Nat → List Nat → List Nat → Option (List Nat)

/-- Result of `decrypt`/`parsePacket`.  Each constructor records the
nonce scratch buffer as left behind by the call, since the source
mutates the shared `connectionData.nonceBuffer` in place. -/
inductive ParseOutcome where
  /-- A JavaScript exception escaped the call. -/
  | thrown (nonceAfter : List Nat) : ParseOutcome
  /-- `decrypt` returned `undefined` (authentication failure). -/
  | failed (nonceAfter : List Nat) : ParseOutcome
  /-- A parsed packet was returned. -/
  | ok (payload : List Nat) (nonceAfter : List Nat) : ParseOutcome
  deriving DecidableEq, Repr

/-- `VoiceReceiver.decrypt` (lines 74-91). -/
def decrypt (buffer : List Nat) (mode : String) (nonce : List Nat)
    (secretKey : List Nat) (f : Opener) : ParseOutcome :=
  match decryptSetup buffer mode nonce with
  | none => .thrown nonce
  | some c =>
    match f c.ciphertext c.nonceUsed secretKey with
    | none => .failed c.nonceUsed
    | some d => .ok d c.nonceUsed

/-- The extension-element loop of `parsePacket` (lines 110-115), returning
the final cursor.  `packet[offset]` out of range is `undefined`, which
fails the `=== 0` test and contributes `undefined >> 4 = 0`. -/
def extLoop (packet : List Nat) : Nat → Nat → Nat
  | 0, offset => offset
  | n + 1, offset =>
    match packet.get? offset with
    | some 0 => extLoop packet n (offset + 1)
    | some b => extLoop packet n (offset + 1 + 1 + (b >>> 4))
    | none => extLoop packet n (offset + 1 + 1 + 0)

/-- The extension-stripping block of `parsePacket` (lines 107-121) applied
to the decrypted payload.  `none` models the `ERR_OUT_OF_RANGE` exception
of `packet.readUInt8(offset)` when the final cursor is out of range. -/
def stripExt (packet : List Nat) : Option (List Nat) :=
  if packet.getD 0 256 = 0xbe ∧ packet.getD 1 256 = 0xde ∧ 4 < packet.length then
    let count := packet.getD 2 0 * 256 + packet.getD 3 0
    let offset := extLoop packet count 4
    match packet.get? offset with
    | none => none
    | some b => some (packet.drop (if b = 0 ∨ b = 2 then offset + 1 else offset))
  else some packet

/-- `VoiceReceiver.parsePacket` (lines 102-124). -/
def parsePacket (buffer : List Nat) (mode : String) (nonce : List Nat)
    (secretKey : List Nat) (f : Opener) : ParseOutcome :=
  match decrypt buffer mode nonce secretKey f with
  | .ok d na =>
    match stripExt d with
    | some p => .ok p na
    | none => .thrown na
  | r => r

/-- Cursor advance of claim C1's description of one extension element:
"each element's leading byte's low nibble + 1 gives the element's body
length (a leading byte equal to 0x00 is a single-byte padding element
with zero body length), advances past each element's header byte plus
its body".  The claim does not address reads past the end of the
payload; the branch chosen for that case is never exercised by the
counterexample. -/
def claimExtLoop (packet : List Nat) : Nat → Nat → Nat
  | 0, offset => offset
  | n + 1, offset =>
    match packet.get? offset with
    | some 0 => claimExtLoop packet n (offset + 1)
    | some b => claimExtLoop packet n (offset + 1 + (b % 16 + 1))
    | none => claimExtLoop packet n (offset + 1)

/-- Transliteration of claim C1: strip the extension block by reading a
16-bit big-endian count at offset 2, iterating that many elements with
body length given by the low nibble + 1, then skipping one further byte
when it equals 0x00 or 0x02, returning the remainder from the final
cursor. -/
def claimStrip (packet : List Nat) : Option (List Nat) :=
  if packet.getD 0 256 = 0xbe ∧ packet.getD 1 256 = 0xde ∧ 4 < packet.length then
    let count := packet.getD 2 0 * 256 + packet.getD 3 0
    let offset := claimExtLoop packet count 4
    some (packet.drop
      (if packet.getD offset 256 = 0 ∨ packet.getD offset 256 = 2 then offset + 1 else offset))
  else some packet

/-- Per-element cursor advance as stated by the amended claim C1: the
leading byte's high nibble + 1 gives the element's body length, a
leading byte equal to 0x00 is a single-byte padding element with zero
body length, and a read past the end of the payload behaves as an
element with body length 1. -/
def elemAdvance (packet : List Nat) (offset : Nat) : Nat :=
  match packet.get? offset with
  | some 0 => 1
  | some b => 1 + ((b >>> 4) + 1)
  | none => 1 + 1

/-- Final cursor of the amended claim C1: starting from the given
offset, consume the given number of extension elements. -/
def amendedCursor (packet : List Nat) : Nat → Nat → Nat
  | 0, offset => offset
  | n + 1, offset => amendedCursor packet n (offset + elemAdvance packet offset)

/-- Extension stripping as stated by the amended claim C1: with the
marker `0xBE 0xDE` and more than 4 bytes present, read the 16-bit
big-endian count at offset 2, advance the cursor from offset 4 through
that many elements (body length = high nibble + 1), then — provided the
final cursor is within the payload, a range error being thrown
otherwise — skip one further byte if it equals 0x00 or 0x02 and return
the remainder from the final cursor. -/
def amendedStrip (packet : List Nat) : Option (List Nat) :=
  if packet.getD 0 256 = 0xbe ∧ packet.getD 1 256 = 0xde ∧ 4 < packet.length then
    let count := packet.getD 2 0 * 256 + packet.getD 3 0
    let c := amendedCursor packet count 4
    match packet.get? c with
    | none => none
    | some b => some (packet.drop (if b = 0 ∨ b = 2 then c + 1 else c))
  else some packet

theorem extLoop_eq_amendedCursor (packet : List Nat) :
    ∀ n offset, extLoop packet n offset = amendedCursor packet n offset := by
  intro n
  induction n with
  | zero => intro offset; rfl
  | succ n ih =>
    intro offset
    unfold extLoop amendedCursor elemAdvance
    cases h : packet.get? offset with
    | none => simpa using ih (offset + 2)
    | some b =>
      cases b with
      | zero => simpa [h] using ih (offset + 1)
      | succ b =>
        have : offset + 1 + 1 + (Nat.succ b >>> 4) = offset + (1 + ((Nat.succ b >>> 4) + 1)) := by
          omega
        simpa [h, this] using ih (offset + (1 + ((Nat.succ b >>> 4) + 1)))

theorem stripExt_eq_amendedStrip (packet : List Nat) :
    stripExt packet = amendedStrip packet := by
  unfold stripExt amendedStrip
  simp only [extLoop_eq_amendedCursor]

/-- The data held by the identity registry for one participant
(`VoiceUserData` of `SSRCMap.ts`, whose source is not in the
repository snapshot): participant identity, primary audio source id,
and optional secondary video source id. -/
structure VoiceUserData where
  userId : String
  audioSSRC : Nat
  videoSSRC : Option Nat
  deriving DecidableEq, Repr

/-- Modelled from the spec: `SSRCMap.update` of the Identity Registry,
whose source file is not in the repository snapshot.  Spec 4.1:
"`update(participantId, primarySourceId, secondarySourceId?)` inserts
or replaces the binding for participantId"; the invariant "at most one
binding per participantId" is maintained by removing any prior binding
for the same participant. -/
def ssrcUpdate (m : List VoiceUserData) (u : VoiceUserData) : List VoiceUserData :=
  u :: m.filter (fun v => !(v.userId == u.userId))

/-- Modelled from the spec: `SSRCMap.delete` of the Identity Registry
("`remove(participantId)` deletes the binding", spec 4.1). -/
def ssrcDelete (m : List VoiceUserData) (userId : String) : List VoiceUserData :=
  m.filter (fun v => !(v.userId == userId))

/-- A subscription target: a numeric source id or a participant
identity string (`target: string | number` of `subscribe`). -/
def Target : Type := Nat ⊕ String

/-- Modelled from the spec: `SSRCMap.get` of the Identity Registry
("`resolve(sourceIdOrParticipantId)` accepts either a numeric source id
or a participant identity string and returns the matching binding or
nothing", spec 4.1; a numeric id matches the binding's primary or
secondary source id). -/
def resolveTarget (m : List VoiceUserData) (t : Target) : Option VoiceUserData :=
  match t with
  | Sum.inl n => m.find? (fun v => v.audioSSRC == n || v.videoSSRC == some n)
  | Sum.inr uid => m.find? (fun v => v.userId == uid)

/-- `subscriptions.get ssrc` on the subscription map
(`Map<number, AudioReceiveStream>`, streams named by creation token). -/
def mapGet (m : List (Nat × Nat)) (k : Nat) : Option Nat :=
  (m.find? (fun e => e.1 == k)).map (fun e => e.2)

/-- `subscriptions.delete ssrc`. -/
def mapDelete (m : List (Nat × Nat)) (k : Nat) : List (Nat × Nat) :=
  m.filter (fun e => !(e.1 == k))

/-- `subscriptions.set ssrc stream`. -/
def mapSet (m : List (Nat × Nat)) (k v : Nat) : List (Nat × Nat) :=
  (k, v) :: mapDelete m k

/-- The `Partial<ConnectionData>` fields read by the receiver. -/
structure ConnectionDataP where
  encryptionMode : Option String
  nonceBuffer : Option (List Nat)
  secretKey : Option (List Nat)
  deriving DecidableEq, Repr

/-- The mutable state of a `VoiceReceiver`: the identity registry, the
subscription map (source id to stream token), a counter producing fresh
stream tokens (two streams are the same object exactly when their
tokens are equal), and the partial connection data. -/
structure ReceiverState where
  ssrcMap : List VoiceUserData
  subscriptions : List (Nat × Nat)
  nextStreamId : Nat
  connectionData : ConnectionDataP
  deriving DecidableEq, Repr

/-- Voice opcode numbers from `discord-api-types/voice/v4`. -/
def opSpeaking : Nat := 5
/-- `VoiceOPCodes.ClientConnect`. -/
def opClientConnect : Nat := 12
/-- `VoiceOPCodes.ClientDisconnect`. -/
def opClientDisconnect : Nat := 13

/-- The fields of `packet.d` that `onWsPacket` inspects; a field is
`some` exactly when it is present with the type the code tests for
(`typeof ... === 'string'` / `'number'`). -/
structure WsPacketD where
  user_id : Option String
  ssrc : Option Nat
  audio_ssrc : Option Nat
  video_ssrc : Option Nat
  deriving DecidableEq, Repr

/-- A signaling packet as inspected by `onWsPacket`. -/
structure WsPacket where
  op : Nat
  d : Option WsPacketD
  deriving DecidableEq, Repr

/-- `VoiceReceiver.onWsPacket` (lines 52-72).  In the `ClientConnect`
branch, `packet.d.video_ssrc === 0 ? undefined : packet.d.video_ssrc`
records an absent video source id both when the field is `0` and when
it is absent. -/
def onWsPacket (s : ReceiverState) (p : WsPacket) : ReceiverState :=
  match p.d with
  | none => s
  | some d =>
    if p.op = opClientDisconnect then
      match d.user_id with
      | some uid => { s with ssrcMap := ssrcDelete s.ssrcMap uid }
      | none => s
    else if p.op = opSpeaking then
      match d.user_id, d.ssrc with
      | some uid, some n => { s with ssrcMap := ssrcUpdate s.ssrcMap ⟨uid, n, none⟩ }
      | _, _ => s
    else if p.op = opClientConnect then
      match d.user_id, d.audio_ssrc with
      | some uid, some a =>
        { s with ssrcMap :=
            ssrcUpdate s.ssrcMap ⟨uid, a, if d.video_ssrc = some 0 then none else d.video_ssrc⟩ }
      | _, _ => s
    else s

/-- Externally observable effects of one `onUdpMessage` call: a frame
pushed to a stream, a stream destroyed with an error, or a JavaScript
exception escaping the handler (the source installs no handler). -/
structure UdpEffects where
  pushed : Option (Nat × List Nat)
  destroyed : Option Nat
  thrown : Bool
  deriving DecidableEq, Repr

/-- No observable effect: a silent drop. -/
def noEffects : UdpEffects := ⟨none, none, false⟩

/-- Store the nonce scratch buffer left behind by a decode attempt
(`decrypt` mutates `connectionData.nonceBuffer` in place). -/
def updNonce (s : ReceiverState) (na : List Nat) : ReceiverState :=
  { s with connectionData := { s.connectionData with nonceBuffer := some na } }

/-- `VoiceReceiver.onUdpMessage` (lines 132-154).  The guard
`this.connectionData.encryptionMode && ...` is JavaScript truthiness:
an empty mode string is falsy, while the nonce buffer and secret key
are objects and are truthy whenever present. -/
def onUdpMessage (s : ReceiverState) (msg : List Nat) (f : Opener) :
    ReceiverState × UdpEffects :=
  if msg.length ≤ 8 then (s, noEffects)
  else
    match readUInt32BE msg 8 with
    | none => (s, { noEffects with thrown := true })
    | some ssrc =>
      match mapGet s.subscriptions ssrc with
      | none => (s, noEffects)
      | some streamId =>
        match resolveTarget s.ssrcMap (Sum.inl ssrc) with
        | none => (s, noEffects)
        | some _ =>
          match s.connectionData.encryptionMode, s.connectionData.nonceBuffer,
              s.connectionData.secretKey with
          | some mode, some nonce, some key =>
            if mode = "" then (s, noEffects)
            else
              match parsePacket msg mode nonce key f with
              | .thrown na => (updNonce s na, { noEffects with thrown := true })
              | .failed na => (updNonce s na, { noEffects with destroyed := some streamId })
              | .ok p na => (updNonce s na, { noEffects with pushed := some (streamId, p) })
          | _, _, _ => (s, noEffects)

/-- Result of `subscribe`: either the synchronous
`Error("No known SSRC for ...")` or the returned stream together with
the updated receiver state. -/
inductive SubscribeResult where
  | err : SubscribeResult
  | ok (state : ReceiverState) (streamId : Nat) : SubscribeResult
  deriving DecidableEq, Repr

/-- `VoiceReceiver.subscribe` (lines 162-175).  The guard `if (!ssrc)`
is JavaScript falsiness on `this.ssrcMap.get(target)?.audioSSRC`: it
throws both when no binding resolves and when the resolved audio source
id is `0`. -/
def subscribe (s : ReceiverState) (t : Target) : SubscribeResult :=
  match resolveTarget s.ssrcMap t with
  | none => .err
  | some u =>
    if u.audioSSRC = 0 then .err
    else
      match mapGet s.subscriptions u.audioSSRC with
      | some streamId => .ok s streamId
      | none =>
        .ok { s with
          subscriptions := mapSet s.subscriptions u.audioSSRC s.nextStreamId,
          nextStreamId := s.nextStreamId + 1 } s.nextStreamId

/-- The close notification registered by `subscribe` (line 172):
`stream.once('close', () => this.subscriptions.delete(ssrc))`. -/
def onChannelClosed (s : ReceiverState) (ssrc : Nat) : ReceiverState :=
  { s with subscriptions := mapDelete s.subscriptions ssrc }

/-- An opener that always reports authentication failure. -/
def openNone : Opener := fun _ _ _ => none

/-- An opener that decrypts every ciphertext to the fixed payload `p`. -/
def openConst (p : List Nat) : Opener := fun _ _ _ => some p

/-- A receiver keyed for suffix mode with one subscribed, identified
participant on source id 1. -/
def suffixState : ReceiverState :=
  ⟨[⟨"alice", 1, none⟩], [(1, 0)], 1,
    ⟨some "xsalsa20_poly1305_suffix", some (List.replicate 24 0), some (List.replicate 32 1)⟩⟩

/-- A 12-byte datagram whose big-endian source id at offset 8 is 1. -/
def msg12 : List Nat := [0, 0, 0, 0, 0, 0, 0, 0, 0, 0, 0, 1]

/-- A freshly constructed receiver: empty registry, no subscriptions,
no connection data. -/
def freshState : ReceiverState := ⟨[], [], 0, ⟨none, none, none⟩⟩

theorem mapGet_mapSet_self (m : List (Nat × Nat)) (k v : Nat) :
    mapGet (mapSet m k v) k = some v := by
  simp [mapGet, mapSet, List.find?_cons_of_pos]

theorem mapGet_mapDelete_self (m : List (Nat × Nat)) (k : Nat) :
    mapGet (mapDelete m k) k = none := by
  simp only [mapGet, mapDelete, Option.map_eq_none', List.find?_eq_none, List.mem_filter]
  intro e he
  simp_all

theorem resolve_ssrcUpdate (m : List VoiceUserData) (u : VoiceUserData) :
    resolveTarget (ssrcUpdate m u) (Sum.inr u.userId) = some u := by
  simp [resolveTarget, ssrcUpdate, List.find?_cons_of_pos]

/-- C1 counterexample: for the decrypted payload
`BE DE 00 01 10 AA BB 05 06` (marker present, length 9 > 4, one counted
extension element with leading byte `0x10`), the code advances by the
leading byte's high nibble (`byte >> 4`, line 114) and returns
`[05, 06]`, while the claim's low-nibble rule would return
`[BB, 05, 06]`. -/
theorem c1_counterexample :
    parsePacket [] "xsalsa20_poly1305" [] []
        (openConst [0xbe, 0xde, 0, 1, 0x10, 0xaa, 0xbb, 5, 6]) =
      ParseOutcome.ok [5, 6] [] ∧
    claimStrip [0xbe, 0xde, 0, 1, 0x10, 0xaa, 0xbb, 5, 6] = some [0xbb, 5, 6] ∧
    ParseOutcome.ok [5, 6] [] ≠ ParseOutcome.ok [0xbb, 5, 6] [] := by
  decide

/-- C1 (amended): for every successfully decrypted payload, `parsePacket`
strips the extension block by reading a 16-bit big-endian count at
offset 2, iterating that many elements from offset 4 where each
element's leading byte's high nibble + 1 gives the element's body length
(a leading 0x00 byte is a single-byte padding element with zero body
length, and a read past the end of the payload behaves as an element
with body length 1), advancing past each element's header byte plus its
body; then, provided the final cursor is within the payload (otherwise
the single-byte read throws a range error and no frame is returned), it
skips one further byte if it equals 0x00 or 0x02 and returns the
remainder of the buffer from the final cursor position. -/
theorem c1_extension_strip_amended (buffer : List Nat) (mode : String)
    (nonce secretKey : List Nat) (f : Opener) (d na : List Nat)
    (h : decrypt buffer mode nonce secretKey f = .ok d na) :
    parsePacket buffer mode nonce secretKey f =
      match amendedStrip d with
      | some p => ParseOutcome.ok p na
      | none => ParseOutcome.thrown na := by
  unfold parsePacket
  rw [h]
  simp only [stripExt_eq_amendedStrip]

/-- C1 witness: a concrete run of the amended theorem on a payload whose
extension block consists of zero counted elements followed by the
alignment byte 0x00. -/
theorem c1_extension_strip_amended_witness :
    parsePacket [] "xsalsa20_poly1305" [] [] (openConst [0xbe, 0xde, 0, 0, 0, 9]) =
      match amendedStrip [0xbe, 0xde, 0, 0, 0, 9] with
      | some p => ParseOutcome.ok p []
      | none => ParseOutcome.thrown [] :=
  c1_extension_strip_amended [] "xsalsa20_poly1305" [] [] (openConst [0xbe, 0xde, 0, 0, 0, 9])
    [0xbe, 0xde, 0, 0, 0, 9] [] (by decide)

/-- C3: a 9-byte datagram in suffix mode is longer than 8 bytes but has
fewer than the 24 trailing bytes the mode requires.  The claim says the
nonce copy never throws and a decode failure results; the code instead
evaluates `buffer.copy(nonce, 0, buffer.length - 24)` with a negative
source offset, so `Buffer.copy` throws a `RangeError` which escapes
`decrypt` (modelled by `ParseOutcome.thrown`). -/
theorem c3_short_suffix_datagram_throws :
    parsePacket (List.replicate 9 0) "xsalsa20_poly1305_suffix" (List.replicate 24 0)
        (List.replicate 32 1) openNone =
      ParseOutcome.thrown (List.replicate 24 0) ∧
    decryptSetup (List.replicate 9 0) "xsalsa20_poly1305_suffix" (List.replicate 24 0) = none := by
  decide

/-- C4: with a subscribed, identified source id and a complete suffix-mode
cipher context, a 12-byte datagram reaches `parsePacket`, whose nonce
copy throws a `RangeError` (12 - 24 is negative); `onUdpMessage` has no
handler, so the exception escapes instead of being scoped to the
channel. -/
theorem c4_exception_escapes_on_udp :
    onUdpMessage suffixState msg12 openNone =
      (suffixState, { noEffects with thrown := true }) := by
  decide

/-- C5: a receiver with no cipher context receives a 9-byte datagram.
The claim says this is silently dropped; the code passes the length-9
guard (`msg.length <= 8` is false) and then `msg.readUInt32BE(8)`
throws `ERR_OUT_OF_RANGE` because only one byte is available at offset
8, so the exception escapes the handler instead of a silent drop. -/
theorem c5_nine_byte_datagram_throws :
    onUdpMessage freshState (List.replicate 9 0) openNone =
      (freshState, { noEffects with thrown := true }) := by
  decide

/-- C6 counterexample: the registry resolves participant "alice" to a
binding with primary audio source id 0, yet `subscribe` throws, because
`if (!ssrc)` (line 164) is JavaScript falsiness and `0` is falsy. -/
theorem c6_counterexample :
    resolveTarget [VoiceUserData.mk "alice" 0 none] (Sum.inr "alice") =
      some (VoiceUserData.mk "alice" 0 none) ∧
    subscribe ⟨[VoiceUserData.mk "alice" 0 none], [], 0, ⟨none, none, none⟩⟩
        (Sum.inr "alice") = SubscribeResult.err := by
  decide

/-- C6 (amended): `subscribe` throws the unknown-target error
synchronously if and only if the identity registry either fails to
resolve the target or resolves it to a binding whose primary audio
source id is 0 (a falsy value); whenever it resolves to a binding with
a nonzero audio source id, `subscribe` returns a channel without
error. -/
theorem c6_unknown_target_amended (s : ReceiverState) (t : Target) :
    subscribe s t = SubscribeResult.err ↔
      resolveTarget s.ssrcMap t = none ∨
        ∃ u, resolveTarget s.ssrcMap t = some u ∧ u.audioSSRC = 0 := by
  unfold subscribe
  cases h : resolveTarget s.ssrcMap t with
  | none => simp
  | some u =>
    by_cases h0 : u.audioSSRC = 0
    · simp [h0]
    · simp only [h0, if_false, Option.some.injEq]
      cases hm : mapGet s.subscriptions u.audioSSRC <;> simp [h0]

theorem bufCopy_tail (buffer nonce : List Nat) (k : Nat) (hk : k ≤ buffer.length)
    (hn : k ≤ nonce.length) :
    bufCopy buffer nonce (buffer.length - k) buffer.length =
      buffer.drop (buffer.length - k) ++ nonce.drop k := by
  have hlen : (buffer.drop (buffer.length - k)).length = k := by
    rw [List.length_drop]; omega
  have htake1 : (buffer.drop (buffer.length - k)).take (buffer.length - (buffer.length - k)) =
      buffer.drop (buffer.length - k) :=
    List.take_of_length_le (by rw [hlen]; omega)
  have htake2 : (buffer.drop (buffer.length - k)).take nonce.length =
      buffer.drop (buffer.length - k) :=
    List.take_of_length_le (by rw [hlen]; exact hn)
  simp only [bufCopy]
  rw [htake1, htake2, hlen]

theorem bufCopy_head (buffer nonce : List Nat) (hk : 12 ≤ buffer.length)
    (hn : 12 ≤ nonce.length) :
    bufCopy buffer nonce 0 12 = buffer.take 12 ++ nonce.drop 12 := by
  have hlen : (buffer.take 12).length = 12 := by
    rw [List.length_take]; omega
  have htake2 : (buffer.take 12).take nonce.length = buffer.take 12 :=
    List.take_of_length_le (by rw [hlen]; exact hn)
  simp only [bufCopy, List.drop_zero, Nat.sub_zero]
  rw [htake2, hlen]

/-- C2: nonce and ciphertext-span selection of `decrypt` per mode, for
datagrams and nonce buffers long enough for the copies the claim
describes: lite copies the last 4 datagram bytes to the start of the
nonce scratch buffer and the span ends 4 bytes before the datagram end;
suffix copies the last 24 and the span ends 24 bytes before the end;
normal copies the first 12 and the span is the remainder after byte 12
to the full end. -/
theorem c2_nonce_and_span (buffer nonce : List Nat) :
    (4 ≤ nonce.length → 4 ≤ buffer.length →
      decryptSetup buffer "xsalsa20_poly1305_lite" nonce =
        some ⟨buffer.drop (buffer.length - 4) ++ nonce.drop 4,
          (buffer.take (buffer.length - 4)).drop 12⟩) ∧
    (24 ≤ nonce.length → 24 ≤ buffer.length →
      decryptSetup buffer "xsalsa20_poly1305_suffix" nonce =
        some ⟨buffer.drop (buffer.length - 24) ++ nonce.drop 24,
          (buffer.take (buffer.length - 24)).drop 12⟩) ∧
    (12 ≤ nonce.length → 12 ≤ buffer.length →
      decryptSetup buffer "xsalsa20_poly1305" nonce =
        some ⟨buffer.take 12 ++ nonce.drop 12, buffer.drop 12⟩) := by
  refine ⟨fun hn hb => ?_, fun hn hb => ?_, fun hn hb => ?_⟩
  · unfold decryptSetup
    rw [if_pos rfl, if_neg (by omega), bufCopy_tail buffer nonce 4 hb hn]
  · unfold decryptSetup
    rw [if_neg (by decide), if_pos rfl, if_neg (by omega),
      bufCopy_tail buffer nonce 24 hb hn]
  · unfold decryptSetup
    rw [if_neg (by decide), if_neg (by decide), bufCopy_head buffer nonce hb hn]

/-- C2 witness: concrete run on a 26-byte datagram and 24-byte nonce
scratch buffer in all three modes. -/
theorem c2_nonce_and_span_witness :
    (4 ≤ (List.replicate 24 9 : List Nat).length ∧
      4 ≤ (List.range 26).length ∧
      decryptSetup (List.range 26) "xsalsa20_poly1305_lite" (List.replicate 24 9) =
        some ⟨(List.range 26).drop 22 ++ (List.replicate 24 9 : List Nat).drop 4,
          ((List.range 26).take 22).drop 12⟩) ∧
    (24 ≤ (List.replicate 24 9 : List Nat).length ∧
      24 ≤ (List.range 26).length ∧
      decryptSetup (List.range 26) "xsalsa20_poly1305_suffix" (List.replicate 24 9) =
        some ⟨(List.range 26).drop 2 ++ (List.replicate 24 9 : List Nat).drop 24,
          ((List.range 26).take 2).drop 12⟩) ∧
    (12 ≤ (List.replicate 24 9 : List Nat).length ∧
      12 ≤ (List.range 26).length ∧
      decryptSetup (List.range 26) "xsalsa20_poly1305" (List.replicate 24 9) =
        some ⟨(List.range 26).take 12 ++ (List.replicate 24 9 : List Nat).drop 12,
          (List.range 26).drop 12⟩) :=
  ⟨⟨by decide, by decide,
      (c2_nonce_and_span (List.range 26) (List.replicate 24 9)).1 (by decide) (by decide)⟩,
    ⟨by decide, by decide,
      (c2_nonce_and_span (List.range 26) (List.replicate 24 9)).2.1 (by decide) (by decide)⟩,
    ⟨by decide, by decide,
      (c2_nonce_and_span (List.range 26) (List.replicate 24 9)).2.2 (by decide) (by decide)⟩⟩

theorem take_drop_self (l : List Nat) (n m : Nat) :
    (l.take n).drop m = (l.drop m).take ((l.take n).drop m).length := by
  rw [List.drop_take, List.length_take, List.length_drop, List.take_eq_take]
  simp only [List.length_drop]
  omega

/-- C10: in every cipher mode (the two trailing-nonce modes included),
the ciphertext span handed to the authenticated-decryption primitive is
an initial segment of the datagram with its first 12 bytes removed,
i.e. it begins at byte offset 12 and excludes the transport header. -/
theorem c10_ciphertext_offset (buffer : List Nat) (mode : String) (nonce : List Nat)
    (c : DecryptCall) (h : decryptSetup buffer mode nonce = some c) :
    c.ciphertext = (buffer.drop 12).take c.ciphertext.length := by
  unfold decryptSetup at h
  split at h
  · split at h
    · exact absurd h (by simp)
    · cases h
      exact take_drop_self buffer (buffer.length - 4) 12
  · split at h
    · split at h
      · exact absurd h (by simp)
      · cases h
        exact take_drop_self buffer (buffer.length - 24) 12
    · cases h
      exact (List.take_length (buffer.drop 12)).symm

/-- C10 witness: concrete run in lite mode on a 20-byte datagram; the
ciphertext span is bytes 12..15, an initial segment of the datagram
with its first 12 bytes removed. -/
theorem c10_ciphertext_offset_witness :
    (DecryptCall.mk ([16, 17, 18, 19] ++ List.replicate 20 0) [12, 13, 14, 15]).ciphertext =
      ((List.range 20).drop 12).take
        (DecryptCall.mk ([16, 17, 18, 19] ++ List.replicate 20 0)
          [12, 13, 14, 15]).ciphertext.length :=
  c10_ciphertext_offset (List.range 20) "xsalsa20_poly1305_lite" (List.replicate 24 0) _
    (by decide)

/-- C7: if `subscribe` returns a channel for a target, an immediate
second `subscribe` for the same target returns the very same channel
token with the receiver state unchanged, and the first call grew the
subscription map by at most one entry. -/
theorem c7_subscribe_idempotent (s : ReceiverState) (t : Target) (s₁ : ReceiverState)
    (id₁ : Nat) (h : subscribe s t = SubscribeResult.ok s₁ id₁) :
    subscribe s₁ t = SubscribeResult.ok s₁ id₁ ∧
      s₁.subscriptions.length ≤ s.subscriptions.length + 1 := by
  unfold subscribe at h
  split at h
  · exact absurd h (by simp)
  next u hr =>
    split at h
    next h0 => exact absurd h (by simp)
    next h0 =>
      split at h
      next sid hm =>
        cases h
        refine ⟨?_, by omega⟩
        simp only [subscribe, hr, h0, if_false, hm]
      next hm =>
        cases h
        refine ⟨?_, ?_⟩
        · simp only [subscribe, hr, h0, if_false, mapGet_mapSet_self]
        · have hf := List.length_filter_le (fun e => !(e.1 == u.audioSSRC)) s.subscriptions
          simp only [mapSet, mapDelete, List.length_cons]
          omega

/-- C7 witness: concrete double subscription to participant "alice"
(audio source id 5) starting from an unsubscribed receiver. -/
theorem c7_subscribe_idempotent_witness :
    subscribe ⟨[VoiceUserData.mk "alice" 5 none], [], 0, ⟨none, none, none⟩⟩
        (Sum.inr "alice") =
      SubscribeResult.ok
        ⟨[VoiceUserData.mk "alice" 5 none], [(5, 0)], 1, ⟨none, none, none⟩⟩ 0 ∧
    subscribe ⟨[VoiceUserData.mk "alice" 5 none], [(5, 0)], 1, ⟨none, none, none⟩⟩
        (Sum.inr "alice") =
      SubscribeResult.ok
        ⟨[VoiceUserData.mk "alice" 5 none], [(5, 0)], 1, ⟨none, none, none⟩⟩ 0 ∧
    (⟨[VoiceUserData.mk "alice" 5 none], [(5, 0)], 1,
        ⟨none, none, none⟩⟩ : ReceiverState).subscriptions.length ≤
      (⟨[VoiceUserData.mk "alice" 5 none], [], 0,
        ⟨none, none, none⟩⟩ : ReceiverState).subscriptions.length + 1 :=
  ⟨by decide,
    (c7_subscribe_idempotent ⟨[VoiceUserData.mk "alice" 5 none], [], 0, ⟨none, none, none⟩⟩
      (Sum.inr "alice") _ 0 (by decide)).1,
    (c7_subscribe_idempotent ⟨[VoiceUserData.mk "alice" 5 none], [], 0, ⟨none, none, none⟩⟩
      (Sum.inr "alice") _ 0 (by decide)).2⟩

/-- C8: once the close notification has removed the subscription entry
for a source id, any datagram carrying that source id at offset 8 is
silently dropped with the receiver state unchanged; moreover the
datagram path never alters the subscription map of any receiver (pure
lookup, no creation). -/
theorem c8_closed_channel_drops (s u : ReceiverState) (ssrc : Nat) (msg : List Nat)
    (f : Opener) (h : readUInt32BE msg 8 = some ssrc) :
    onUdpMessage (onChannelClosed s ssrc) msg f = (onChannelClosed s ssrc, noEffects) ∧
      ((onUdpMessage u msg f).1).subscriptions = u.subscriptions := by
  have hlen : ¬ msg.length ≤ 8 := by
    intro hl
    rw [readUInt32BE, if_neg (by omega)] at h
    exact Option.noConfusion h
  constructor
  · unfold onUdpMessage
    rw [if_neg hlen, h]
    simp only [onChannelClosed, mapGet_mapDelete_self]
  · unfold onUdpMessage updNonce
    repeat' split
    all_goals rfl

/-- C8 witness: after closing the channel for source id 1 on the keyed
receiver, the 12-byte datagram carrying source id 1 is silently
dropped, and the handler leaves the subscription map of the original
receiver untouched. -/
theorem c8_closed_channel_drops_witness :
    onUdpMessage (onChannelClosed suffixState 1) msg12 openNone =
      (onChannelClosed suffixState 1, noEffects) ∧
    ((onUdpMessage suffixState msg12 openNone).1).subscriptions =
      suffixState.subscriptions :=
  c8_closed_channel_drops suffixState suffixState 1 msg12 openNone (by decide)

/-- C9: a `ClientConnect` signaling event with a string user id and
numeric audio source id updates the registry so that the user's binding
records the video source id as absent exactly when the event's video
source id equals 0, and as the given nonzero value otherwise. -/
theorem c9_video_zero_absent (s : ReceiverState) (uid : String) (a v : Nat)
    (sf : Option Nat) :
    resolveTarget
        ((onWsPacket s ⟨opClientConnect, some ⟨some uid, sf, some a, some v⟩⟩).ssrcMap)
        (Sum.inr uid) =
      some ⟨uid, a, if v = 0 then none else some v⟩ := by
  have h1 : onWsPacket s ⟨opClientConnect, some ⟨some uid, sf, some a, some v⟩⟩ =
      { s with ssrcMap :=
          ssrcUpdate s.ssrcMap ⟨uid, a, if v = 0 then none else some v⟩ } := by
    unfold onWsPacket
    simp only [opClientConnect, opClientDisconnect, opSpeaking]
    norm_num
  rw [h1]
  exact resolve_ssrcUpdate s.ssrcMap ⟨uid, a, if v = 0 then none else some v⟩
